import Mathlib

/-!
Verification of the einburgerungstest-bot appointment scraper.

This file gives a shallow embedding of the core of the repository
(`appointment_checker.py` and the change-detection state update in
`bot.py`) and proves the testable properties of its specification.

Modelling conventions:
* HTML documents parsed by BeautifulSoup are modelled as rose trees of
  element nodes; each node carries its tag, its class list, its direct
  text strings and its child elements.  BeautifulSoup's `find` /
  `find_all` document-order searches become pre-order tree searches.
* A parse of the HTML source that raises becomes an `Except String`
  input to `parse_appointments` (the Python `try` around the body).
* Network interaction is an environment function: the redirect walker
  consumes a function from request index to optional response (where
  `none` is a raised transport exception), and the location poller
  consumes a function from request URL to a fetch result.
-/

namespace EBBot

/-! ### String containment (Python's `in` operator on strings) -/

/-- does `pat` occur at the head of `s`? -/
def strStarts : List Char → List Char → Bool
  | [], _ => true
  | _ :: _, [] => false
  | c :: cs, d :: ds => c == d && strStarts cs ds

/-- does `pat` occur anywhere inside `s`? -/
def strHas (pat : List Char) : List Char → Bool
  | [] => strStarts pat []
  | d :: ds => strStarts pat (d :: ds) || strHas pat ds

/-- Python's `pat in s` on strings. -/
def containsSub (s pat : String) : Bool :=
  strHas pat.toList s.toList

/-- Python's `s.lower()` (ASCII-faithful). -/
def lowerStr (s : String) : String :=
  s.map Char.toLower

/-! ### DOM model -/

mutual
/-- an HTML element: tag name, class attribute tokens, direct text
children, and child elements. -/
inductive Node where
  | mk (tag : String) (classes : List String) (strs : List String) (children : NodeList)
/-- children of an element / top level of a document. -/
inductive NodeList where
  | nil
  | cons (n : Node) (ns : NodeList)
end

def Node.tag : Node → String
  | .mk t _ _ _ => t

def Node.classes : Node → List String
  | .mk _ c _ _ => c

def Node.strs : Node → List String
  | .mk _ _ s _ => s

def Node.children : Node → NodeList
  | .mk _ _ _ ch => ch

mutual
/-- number of nodes in the tree satisfying `p` (the length of
BeautifulSoup's `find_all` result). -/
def countNode (p : Node → Bool) : Node → Nat
  | .mk t c s ch => (if p (.mk t c s ch) then 1 else 0) + countNodeList p ch
def countNodeList (p : Node → Bool) : NodeList → Nat
  | .nil => 0
  | .cons n ns => countNode p n + countNodeList p ns
end

mutual
/-- is some node of the tree satisfying `p`? (BeautifulSoup `find` as a
truth value). -/
def anyNode (p : Node → Bool) : Node → Bool
  | .mk t c s ch => p (.mk t c s ch) || anyNodeList p ch
def anyNodeList (p : Node → Bool) : NodeList → Bool
  | .nil => false
  | .cons n ns => anyNode p n || anyNodeList p ns
end

mutual
/-- first node in document (pre-)order satisfying `p` (BeautifulSoup
`find`). -/
def findNode (p : Node → Bool) : Node → Option Node
  | .mk t c s ch =>
    if p (.mk t c s ch) then some (.mk t c s ch) else findNodeList p ch
def findNodeList (p : Node → Bool) : NodeList → Option Node
  | .nil => none
  | .cons n ns =>
    match findNode p n with
    | some r => some r
    | none => findNodeList p ns
end

mutual
/-- is some text string in the tree satisfying `p`? (BeautifulSoup
`find(text=...)` as a truth value). -/
def anyText (p : String → Bool) : Node → Bool
  | .mk _ _ s ch => s.any p || anyTextList p ch
def anyTextList (p : String → Bool) : NodeList → Bool
  | .nil => false
  | .cons n ns => anyText p n || anyTextList p ns
end

/-! ### Availability classifier (`AppointmentChecker._parse_appointments`) -/

/-- element match for `soup.find('div', class_='calendar-month-table')`. -/
def isCalendarContainer (n : Node) : Bool :=
  n.tag == "div" && n.classes.contains ("calendar-month-table")

/-- element match for `soup.find_all('td', class_='buchbar')`. -/
def isBuchbarTd (n : Node) : Bool :=
  n.tag == "td" && n.classes.contains ("buchbar")

/-- element match for
`soup.find_all(['td', 'a'], class_=['buchbar', 'calendar-week-day'])`. -/
def isFallbackDay (n : Node) : Bool :=
  (n.tag == "td" || n.tag == "a") &&
    (n.classes.contains ("buchbar") || n.classes.contains ("calendar-week-day"))

/-- element match for `soup.find('div', class_=c)`. -/
def isDivOfClass (c : String) (n : Node) : Bool :=
  n.tag == "div" && n.classes.contains c

/-- text match for the lambda in the third no-appointments indicator:
`t and 'keine' in t.lower() and 'termin' in t.lower()`. -/
def isKeineTerminText (t : String) : Bool :=
  containsSub (lowerStr t) "keine" && containsSub (lowerStr t) "termin"

/-- one appointment entry as appended by `_parse_appointments`. -/
structure Appointment where
  location_name : String
  location_id : String
  has_slots : Bool
  slot_count : Nat
deriving DecidableEq

/-- return dictionary of `_parse_appointments`. -/
structure ParseResult where
  status : String
  appointments : List Appointment
  location : String
  error : Option String
deriving DecidableEq

/-- shallow embedding of `AppointmentChecker._parse_appointments`.
`html` is the result of the BeautifulSoup parse: `Except.error e` models
the body of the `try` raising (caught to a `parse_error` result). -/
def parse_appointments (html : Except String NodeList)
    (location_name location_id final_url : String) : ParseResult :=
  match html with
  | .error e =>
    { status := "parse_error", appointments := [], location := location_name,
      error := some e }
  | .ok soup =>
    if containsSub final_url ("/terminvereinbarung/termin/stop/") then
      { status := "no_appointments", appointments := [], location := location_name,
        error := none }
    else if containsSub final_url ("/terminvereinbarung/termin/taken/") then
      { status := "no_appointments", appointments := [], location := location_name,
        error := none }
    else
      let calendar_container := anyNodeList isCalendarContainer soup
      let available_days :=
        if calendar_container then countNodeList isBuchbarTd soup
        else countNodeList isFallbackDay soup
      let appointments : List Appointment :=
        if available_days > 0 then
          [{ location_name := location_name, location_id := location_id,
             has_slots := true, slot_count := available_days }]
        else []
      let has_no_appointments :=
        anyNodeList (isDivOfClass ("alert-warning")) soup ||
        anyNodeList (isDivOfClass ("alert")) soup ||
        anyTextList isKeineTerminText soup
      if has_no_appointments && appointments.isEmpty then
        { status := "no_appointments", appointments := [], location := location_name,
          error := none }
      else
        { status := "success", appointments := appointments,
          location := location_name, error := none }

/-! ### Redirect walker (`AppointmentChecker._follow_redirects_with_cookies`) -/

/-- the site origin, `self.base_url`. -/
def base_url : String := "https://service.berlin.de"

/-- `max_redirects` default of `_follow_redirects_with_cookies`. -/
def MAX_REDIRECTS : Nat := 5

/-- what the walker observes of one HTTP response: the status code, the
`location` header (`headers.get('location', '')`), and the
`Zmsappointment` value carried by a `set-cookie` header, if any. -/
structure HttpResponse where
  status : Nat
  location : String
  zmsCookie : Option String
deriving DecidableEq

/-- is `status` one of the manual-redirect codes `[301,302,303,307,308]`? -/
def isRedirectStatus (status : Nat) : Bool :=
  status == 301 || status == 302 || status == 303 || status == 307 || status == 308

/-- the loop of `_follow_redirects_with_cookies`.  The server is a
function from request index to the response of that request, `none`
modelling `client.get` raising.  `fuel` is `max_redirects -
redirect_count`; `reqs` counts requests issued so far.  Returns the
final response (`none` when an exception aborted the walk) and the
total number of requests issued. -/
def followAux (server : Nat → Option HttpResponse) :
    Nat → Nat → Option String → String → Option HttpResponse →
    Option HttpResponse × Nat
  | 0, reqs, _, _, response => (response, reqs)
  | fuel + 1, reqs, cookies, _current_url, _ =>
    match server reqs with
    | none => (none, reqs + 1)
    | some r =>
      if isRedirectStatus r.status then
        if r.location != "" then
          followAux server fuel (reqs + 1)
            (match r.zmsCookie with
             | some v => some v
             | none => cookies)
            (if !(r.location.startsWith ("http")) then base_url ++ r.location
             else r.location)
            (some r)
        else (some r, reqs + 1)
      else (some r, reqs + 1)

/-- shallow embedding of `_follow_redirects_with_cookies`: walk from
`initial_url` with empty cookies, no response yet, and the full redirect
budget. -/
def follow_redirects_with_cookies (server : Nat → Option HttpResponse)
    (initial_url : String) : Option HttpResponse × Nat :=
  followAux server MAX_REDIRECTS 0 none initial_url none

/-! ### Location poller (`AppointmentChecker.check_appointments`) -/

/-- one registry entry of `self.vhs_locations` (id key and name value). -/
structure Location where
  id : String
  name : String
deriving DecidableEq

/-- the fixed registry `self.vhs_locations`, in insertion order. -/
def vhs_locations : List Location :=
  [⟨"122671", "Volkshochschule Treptow-Köpenick"⟩,
   ⟨"325853", "Volkshochschule City West"⟩,
   ⟨"351438", "Volkshochschule Friedrichshain-Kreuzberg (Standort Friedrichshain)"⟩,
   ⟨"351444", "Volkshochschule Friedrichshain-Kreuzberg (Standort Kreuzberg)"⟩,
   ⟨"122626", "Volkshochschule Lichtenberg"⟩,
   ⟨"122628", "Volkshochschule Marzahn-Hellersdorf"⟩,
   ⟨"351636", "Volkshochschule Mitte - Antonstraße"⟩,
   ⟨"122659", "Volkshochschule Neukölln"⟩,
   ⟨"122664", "Volkshochschule Reinickendorf"⟩,
   ⟨"122666", "Volkshochschule Spandau"⟩,
   ⟨"325987", "Volkshochschule Steglitz-Zehlendorf - Goethestraße"⟩,
   ⟨"351435", "Volkshochschule Tempelhof-Schöneberg"⟩]

/-- the per-location request URL built by `check_appointments` (the id
`'122671'` uses the special hard-coded template). -/
def buildUrl (location_id : String) : String :=
  if location_id == "122671" then
    base_url ++ "/terminvereinbarung/termin/tag.php" ++
      "?id=4067&anliegen%5b%5d=351180&termin=1&dienstleister=122671&anliegen[]=351180"
  else
    base_url ++ "/terminvereinbarung/termin/tag.php" ++
      "?termin=1&dienstleisterlist=" ++ location_id ++ "&anliegenlist=351180"

/-- what one location's fetch produced, abstracting the network:
an exception raised in the outer `try` of the loop body, the walker
returning `None`, or a final response with status code, final URL and
the (possibly raising) BeautifulSoup parse of its body. -/
inductive LocFetch where
  | exn (msg : String)
  | noResponse
  | resp (status : Nat) (finalUrl : String) (html : Except String NodeList)

/-- spec-level status of a per-location poll outcome. -/
inductive PollStatus where
  | available
  | noSlots
  | httpError
  | parseError
  | networkError
deriving DecidableEq

/-- what one iteration of the `check_appointments` loop contributes:
its derived poll status, the appointment entries it extends
`all_appointments` with, the entries it appends to `errors`, and the
names it records in `location_check_times`. -/
structure LocationResult where
  status : PollStatus
  appointments : List Appointment
  errors : List String
  times : List String
deriving DecidableEq

/-- one iteration of the `check_appointments` loop for `loc`, with the
fetch environment keyed by request URL. -/
def checkLocation (env : String → LocFetch) (loc : Location) : LocationResult :=
  match env (buildUrl loc.id) with
  | .exn m =>
    { status := .networkError, appointments := [],
      errors := [loc.name ++ ": " ++ m], times := [] }
  | .noResponse =>
    { status := .networkError, appointments := [],
      errors := [loc.name ++ ": No response"], times := [loc.name] }
  | .resp status finalUrl html =>
    if status == 200 then
      let pr := parse_appointments html loc.name loc.id finalUrl
      { status :=
          if pr.status == "parse_error" then .parseError
          else if pr.appointments.isEmpty then .noSlots
          else .available,
        appointments := pr.appointments, errors := [], times := [loc.name] }
    else
      { status := .httpError, appointments := [],
        errors := [loc.name ++ ": HTTP " ++ toString status], times := [loc.name] }

/-- trace of the `check_appointments` loop: the per-location outcomes,
one per registry entry, in registry order. -/
def outcomes (env : String → LocFetch) : List Location → List LocationResult
  | [] => []
  | loc :: rest => checkLocation env loc :: outcomes env rest

/-- the loop of `check_appointments`, accumulating `all_appointments`,
`errors` and `location_check_times`. -/
def checkLoop (env : String → LocFetch) :
    List Location → List Appointment × List String × List String
  | [] => ([], [], [])
  | loc :: rest =>
    let r := checkLocation env loc
    let acc := checkLoop env rest
    (r.appointments ++ acc.1, r.errors ++ acc.2.1, r.times ++ acc.2.2)

/-- return dictionary of `check_appointments` (the `checked_at` wall
clock stamp is omitted; `location_check_times` keeps which names were
stamped, in order). -/
structure AggregateResult where
  status : String
  appointments : List Appointment
  total_available : Nat
  location_check_times : List String
  errors : Option (List String)
deriving DecidableEq

/-- shallow embedding of `AppointmentChecker.check_appointments`. -/
def check_appointments (env : String → LocFetch) (locs : List Location) :
    AggregateResult :=
  let acc := checkLoop env locs
  { status := if acc.2.1.isEmpty then "success" else "partial_success",
    appointments := acc.1,
    total_available := acc.1.length,
    location_check_times := acc.2.2,
    errors := if acc.2.1.isEmpty then none else some acc.2.1 }

/-- the aggregate determined by a list of per-location outcomes
(used to state that one poll call is exactly the fold of its
per-location outcomes). -/
def aggregateOf (rs : List LocationResult) : AggregateResult :=
  let all := (rs.map LocationResult.appointments).flatten
  let errs := (rs.map LocationResult.errors).flatten
  let times := (rs.map LocationResult.times).flatten
  { status := if errs.isEmpty then "success" else "partial_success",
    appointments := all,
    total_available := all.length,
    location_check_times := times,
    errors := if errs.isEmpty then none else some errs }

/-! ### Change-detection state update (`EinburgerungstestBot.check_and_notify`) -/

/-- the `locations_with_slots` set built by `check_and_notify`:
`for apt in appointments: locations_with_slots.add(apt.get('location_name'))`. -/
def availSet (appointments : List Appointment) : Finset String :=
  appointments.foldl (fun s a => insert a.location_name s) ∅

/-- shallow embedding of the state update in
`EinburgerungstestBot.check_and_notify`: from the previous
`seen_locations_with_slots` and the cycle's appointment list, the set
of locations notified and the new `seen_locations_with_slots`. -/
def check_and_notify_update (previous_seen : Finset String)
    (appointments : List Appointment) : Finset String × Finset String :=
  if !appointments.isEmpty then
    let locations_with_slots := availSet appointments
    let new_locations := locations_with_slots \ previous_seen
    if new_locations ≠ ∅ then (new_locations, locations_with_slots)
    else (∅, previous_seen)
  else (∅, ∅)

/-! ### Spec-side comparison definitions and concrete inputs -/

/-- is the calendar container marker element present in the document? -/
def hasCalendarContainer (doc : NodeList) : Bool :=
  anyNodeList isCalendarContainer doc

/-- spec-side count for the classifier: the specification reads "Look
for a calendar container marker element; if present, count descendant
cells carrying a bookable marker class", i.e. the number of `td`
elements with class `buchbar` that are descendants of the first
calendar container — as opposed to the code's document-wide
`soup.find_all('td', class_='buchbar')`. -/
def containerDescBuchbar (doc : NodeList) : Nat :=
  match findNodeList isCalendarContainer doc with
  | some n => countNodeList isBuchbarTd n.children
  | none => 0

/-- code-side count: `td` elements of class `buchbar` anywhere in the
document. -/
def docBuchbar (doc : NodeList) : Nat :=
  countNodeList isBuchbarTd doc

/-- document with a calendar container holding three bookable cells. -/
def exDoc3 : NodeList :=
  .cons ⟨"div", ["calendar-month-table"], [],
    .cons ⟨"td", ["buchbar"], [], .nil⟩
    (.cons ⟨"td", ["buchbar"], [], .nil⟩
    (.cons ⟨"td", ["buchbar"], [], .nil⟩ .nil))⟩ .nil

/-- document whose calendar container holds one bookable cell while a
second bookable cell sits outside the container. -/
def cexDoc : NodeList :=
  .cons ⟨"div", ["calendar-month-table"], [],
    .cons ⟨"td", ["buchbar"], [], .nil⟩ .nil⟩
  (.cons ⟨"td", ["buchbar"], [], .nil⟩ .nil)

/-- a final URL on the "taken" terminal page. -/
def takenUrl : String :=
  base_url ++ "/terminvereinbarung/termin/taken/"

/-- fetch environment in which every location answers 200 with a body
whose parse raises. -/
def envParseError : String → LocFetch :=
  fun _ => LocFetch.resp 200 base_url (Except.error ("boom"))

/-- fetch environment in which every location answers 200 with the
three-slot calendar document. -/
def envThreeSlots : String → LocFetch :=
  fun _ => LocFetch.resp 200 base_url (Except.ok exDoc3)

/-- a single-location registry used for concrete instances. -/
def locLichtenberg : Location :=
  ⟨"122626", "Volkshochschule Lichtenberg"⟩

/-! ### Lemmas on the change-detection update -/

theorem mem_foldl_insert (l : List Appointment) (s : Finset String) (x : String) :
    x ∈ l.foldl (fun s a => insert a.location_name s) s ↔
      x ∈ s ∨ ∃ a ∈ l, a.location_name = x := by
  induction l generalizing s with
  | nil => simp
  | cons a l ih =>
    simp only [List.foldl_cons, ih, Finset.mem_insert, List.mem_cons]
    constructor
    · rintro (⟨h | h⟩ | ⟨b, hb, hx⟩)
      · exact Or.inr ⟨a, Or.inl rfl, h.symm⟩
      · exact Or.inl h
      · exact Or.inr ⟨b, Or.inr hb, hx⟩
    · rintro (h | ⟨b, hb | hb, hx⟩)
      · exact Or.inl (Or.inr h)
      · exact Or.inl (Or.inl (hb ▸ hx.symm))
      · exact Or.inr ⟨b, hb, hx⟩

theorem mem_availSet (l : List Appointment) (x : String) :
    x ∈ availSet l ↔ ∃ a ∈ l, a.location_name = x := by
  unfold availSet
  rw [mem_foldl_insert]
  simp

theorem availSet_eq_empty_iff (l : List Appointment) :
    availSet l = ∅ ↔ l = [] := by
  constructor
  · intro h
    cases l with
    | nil => rfl
    | cons a t =>
      exfalso
      have : a.location_name ∈ availSet (a :: t) :=
        (mem_availSet _ _).mpr ⟨a, List.mem_cons_self a t, rfl⟩
      rw [h] at this
      exact absurd this (Finset.not_mem_empty _)
  · intro h
    subst h
    rfl

theorem update_fst (prev : Finset String) (l : List Appointment) :
    (check_and_notify_update prev l).1 = availSet l \ prev := by
  unfold check_and_notify_update
  by_cases h : l.isEmpty
  · have hl : l = [] := List.isEmpty_iff.mp h
    subst hl
    simp [availSet]
  · simp only [h, Bool.not_false, if_pos]
    split_ifs with hne
    · rfl
    · simp only [not_ne_iff] at hne
      simp [hne]

theorem update_snd (prev : Finset String) (l : List Appointment) :
    (check_and_notify_update prev l).2 =
      if l.isEmpty then ∅
      else if availSet l \ prev = ∅ then prev else availSet l := by
  unfold check_and_notify_update
  by_cases h : l.isEmpty
  · simp [h]
  · simp only [h, Bool.not_false, if_pos, if_neg]
    by_cases h2 : availSet l \ prev = ∅
    · simp [h2]
    · simp [h2]

/-! ### Lemmas on the location poller -/

theorem outcomes_length (env : String → LocFetch) (locs : List Location) :
    (outcomes env locs).length = locs.length := by
  induction locs with
  | nil => rfl
  | cons loc rest ih => simp [outcomes, ih]

theorem outcomes_getElem? (env : String → LocFetch) (locs : List Location)
    (i : Nat) :
    (outcomes env locs)[i]? = (locs[i]?).map (checkLocation env) := by
  induction locs generalizing i with
  | nil => simp [outcomes]
  | cons loc rest ih =>
    cases i with
    | zero => simp [outcomes]
    | succ j => simpa [outcomes] using ih j

theorem checkLoop_eq (env : String → LocFetch) (locs : List Location) :
    checkLoop env locs =
      (((outcomes env locs).map LocationResult.appointments).flatten,
       ((outcomes env locs).map LocationResult.errors).flatten,
       ((outcomes env locs).map LocationResult.times).flatten) := by
  induction locs with
  | nil => rfl
  | cons loc rest ih => simp [checkLoop, outcomes, ih]

theorem check_appointments_eq_aggregateOf (env : String → LocFetch)
    (locs : List Location) :
    check_appointments env locs = aggregateOf (outcomes env locs) := by
  unfold check_appointments aggregateOf
  rw [checkLoop_eq]

theorem checkLocation_errors_empty_iff (env : String → LocFetch) (loc : Location) :
    (checkLocation env loc).errors = [] ↔
      ((checkLocation env loc).status ≠ PollStatus.networkError ∧
       (checkLocation env loc).status ≠ PollStatus.httpError) := by
  unfold checkLocation
  cases env (buildUrl loc.id) with
  | exn m => simp
  | noResponse => simp
  | resp status finalUrl html =>
    by_cases hst : status == 200
    · simp only [hst, if_pos]
      split_ifs <;> simp
    · simp [hst]

theorem status_success_iff_errors_nil (env : String → LocFetch)
    (locs : List Location) :
    (check_appointments env locs).status = "success" ↔
      (checkLoop env locs).2.1 = [] := by
  unfold check_appointments
  by_cases h : (checkLoop env locs).2.1.isEmpty
  · simp [h, List.isEmpty_iff.mp h]
  · have hne : (checkLoop env locs).2.1 ≠ [] := by
      simpa [List.isEmpty_iff] using h
    simp only [h, if_neg, Bool.false_eq_true]
    exact iff_of_false (by decide) hne

theorem errors_nil_iff_no_net_http (env : String → LocFetch)
    (locs : List Location) :
    ((outcomes env locs).map LocationResult.errors).flatten = [] ↔
      ((outcomes env locs).all fun r =>
        !(r.status == PollStatus.networkError) &&
        !(r.status == PollStatus.httpError)) = true := by
  induction locs with
  | nil => simp [outcomes]
  | cons loc rest ih =>
    simp only [outcomes, List.map_cons, List.flatten_cons, List.all_cons,
      List.append_eq_nil, Bool.and_eq_true, ih]
    constructor
    · rintro ⟨h1, h2⟩
      refine ⟨?_, h2⟩
      have := (checkLocation_errors_empty_iff env loc).mp h1
      simp [this.1, this.2]
    · rintro ⟨h1, h2⟩
      refine ⟨?_, h2⟩
      refine (checkLocation_errors_empty_iff env loc).mpr ?_
      constructor
      · intro hx
        simp [hx] at h1
      · intro hx
        simp [hx] at h1

/-! ### Claims about the change-detection update (C1, C4, C5, C9) -/

/-- C2: one poll call yields exactly one per-location outcome for each
registered location, in registry order (the i-th outcome is the check
of the i-th registry entry), and the aggregate the call returns is
exactly the fold of those per-location outcomes. -/
theorem c2_one_outcome_per_location (env : String → LocFetch) (locs : List Location) :
    (outcomes env locs).length = locs.length ∧
    (∀ i : Nat, (outcomes env locs)[i]? = (locs[i]?).map (checkLocation env)) ∧
    check_appointments env locs = aggregateOf (outcomes env locs) :=
  ⟨outcomes_length env locs, fun i => outcomes_getElem? env locs i,
    check_appointments_eq_aggregateOf env locs⟩

/-- C3 counterexample: a cycle in which the single location's body
fails to parse (a `PARSE_ERROR` outcome) still reports overall status
`"success"`, because parse errors are never appended to `errors`. -/
theorem c3_counterexample :
    (outcomes envParseError [locLichtenberg]).map LocationResult.status =
      [PollStatus.parseError] ∧
    (check_appointments envParseError [locLichtenberg]).status = "success" := by
  decide

/-- C3 (amended): the aggregate status is `"success"` exactly when no
location produced a `NETWORK_ERROR` or `HTTP_ERROR` outcome — a
`PARSE_ERROR` does not downgrade the status — and the cycle always runs
to completion, producing one outcome per location. -/
theorem c3_amended (env : String → LocFetch) (locs : List Location) :
    ((check_appointments env locs).status = "success" ↔
      ((outcomes env locs).all fun r =>
        !(r.status == PollStatus.networkError) &&
        !(r.status == PollStatus.httpError)) = true) ∧
    (outcomes env locs).length = locs.length := by
  refine ⟨?_, outcomes_length env locs⟩
  rw [status_success_iff_errors_nil env locs, checkLoop_eq]
  simpa using errors_nil_iff_no_net_http env locs

/-- C1 counterexample: with previous seen set `{A, B}` and a cycle whose
only available location is `A` (a non-empty available set), the new
seen set is not replaced by the available set — the update keeps
`{A, B}` because no location is newly appeared. -/
theorem c1_counterexample :
    availSet [⟨"A", "1", true, 2⟩] ≠ ∅ ∧
    (check_and_notify_update ({"A", "B"} : Finset String) [⟨"A", "1", true, 2⟩]).2 ≠
      availSet [⟨"A", "1", true, 2⟩] := by
  decide

/-- C1 (amended): for a cycle with a non-empty appointment list, the new
seen set is the set of currently available locations when some location
is newly appeared, but is the unchanged previous seen set when every
available location was already seen (the code replaces the seen set
only inside the `if new_locations:` branch). -/
theorem c1_amended (prev : Finset String) (l : List Appointment) (h : l ≠ []) :
    (check_and_notify_update prev l).2 =
      if availSet l \ prev = ∅ then prev else availSet l := by
  rw [update_snd]
  simp [h]

/-- witness for `c1_amended` at a concrete input. -/
theorem c1_amended_witness :
    ([⟨"A", "1", true, 2⟩] : List Appointment) ≠ [] ∧
    (check_and_notify_update (∅ : Finset String) [⟨"A", "1", true, 2⟩]).2 =
      (if availSet [⟨"A", "1", true, 2⟩] \ (∅ : Finset String) = ∅ then (∅ : Finset String)
       else availSet [⟨"A", "1", true, 2⟩]) :=
  ⟨by decide, c1_amended ∅ [⟨"A", "1", true, 2⟩] (by decide)⟩

/-- C4: for every previous seen set and every cycle appointment list,
the set of locations notified is exactly the currently available
locations minus the previous seen set. -/
theorem c4_to_notify_is_diff (prev : Finset String) (l : List Appointment) :
    (check_and_notify_update prev l).1 = availSet l \ prev :=
  update_fst prev l

/-- C5: a cycle with zero available locations always resets the seen
set to empty, whatever the previous seen set was. -/
theorem c5_reset (prev : Finset String) (l : List Appointment)
    (h : availSet l = ∅) :
    (check_and_notify_update prev l).2 = ∅ := by
  have hl : l = [] := (availSet_eq_empty_iff l).mp h
  subst hl
  rfl

/-- witness for `c5_reset` at a concrete input. -/
theorem c5_reset_witness :
    availSet ([] : List Appointment) = ∅ ∧
    (check_and_notify_update ({"A"} : Finset String) ([] : List Appointment)).2 = ∅ :=
  ⟨rfl, c5_reset {"A"} [] rfl⟩

/-- C9: applying the update twice with the same appointment list,
feeding the first new seen set as the second previous seen set, always
notifies nothing the second time. -/
theorem c9_update_idempotent (prev : Finset String) (l : List Appointment) :
    (check_and_notify_update (check_and_notify_update prev l).2 l).1 = ∅ := by
  rw [update_fst, update_snd]
  by_cases h : l.isEmpty
  · have hl : l = [] := List.isEmpty_iff.mp h
    subst hl
    simp [availSet]
  · by_cases h2 : availSet l \ prev = ∅
    · simp [h, h2]
    · simp [h, h2]

/-! ### Claims about the classifier and the walker (C6, C7, C8, C10) -/

theorem parse_appointments_shape (html : Except String NodeList)
    (name id url : String) :
    (parse_appointments html name id url).appointments = [] ∨
    ∃ k, 0 < k ∧ (parse_appointments html name id url).appointments =
      [{ location_name := name, location_id := id, has_slots := true,
         slot_count := k }] := by
  cases html with
  | error e => exact Or.inl rfl
  | ok soup =>
    by_cases h1 : containsSub url ("/terminvereinbarung/termin/stop/")
    · exact Or.inl (by simp [parse_appointments, h1])
    · by_cases h2 : containsSub url ("/terminvereinbarung/termin/taken/")
      · exact Or.inl (by simp [parse_appointments, h1, h2])
      · by_cases hcc : anyNodeList isCalendarContainer soup
        · by_cases hd : 0 < countNodeList isBuchbarTd soup
          · refine Or.inr ⟨countNodeList isBuchbarTd soup, hd, ?_⟩
            simp [parse_appointments, h1, h2, hcc, hd]
          · refine Or.inl ?_
            simp [parse_appointments, h1, h2, hcc, hd, apply_ite]
        · by_cases hd : 0 < countNodeList isFallbackDay soup
          · refine Or.inr ⟨countNodeList isFallbackDay soup, hd, ?_⟩
            simp [parse_appointments, h1, h2, hcc, hd]
          · refine Or.inl ?_
            simp [parse_appointments, h1, h2, hcc, hd, apply_ite]

/-- C6: when the final URL carries the stop or taken terminal-page
path, the classifier returns the no-appointments result with an empty
appointment list, whatever the parsed HTML body holds — the URL check
takes priority over any bookable-cell evidence. -/
theorem c6_terminal_url_priority (doc : NodeList) (name id url : String)
    (h : containsSub url ("/terminvereinbarung/termin/stop/") = true ∨
         containsSub url ("/terminvereinbarung/termin/taken/") = true) :
    parse_appointments (Except.ok doc) name id url =
      { status := "no_appointments", appointments := [], location := name,
        error := none } := by
  unfold parse_appointments
  rcases h with h | h
  · simp [h]
  · by_cases h2 : containsSub url ("/terminvereinbarung/termin/stop/")
    · simp [h2]
    · simp [h2, h]

/-- witness for `c6_terminal_url_priority`: the taken terminal URL with
a body holding a calendar container full of bookable cells. -/
theorem c6_terminal_url_priority_witness :
    (containsSub takenUrl ("/terminvereinbarung/termin/stop/") = true ∨
     containsSub takenUrl ("/terminvereinbarung/termin/taken/") = true) ∧
    parse_appointments (Except.ok exDoc3) ("VHS") ("1") takenUrl =
      { status := "no_appointments", appointments := [], location := "VHS",
        error := none } :=
  ⟨Or.inr (by decide),
   c6_terminal_url_priority exDoc3 ("VHS") ("1") takenUrl (Or.inr (by decide))⟩

theorem followAux_requests_le (server : Nat → Option HttpResponse)
    (fuel reqs : Nat) (cookies : Option String) (url : String)
    (resp : Option HttpResponse) :
    (followAux server fuel reqs cookies url resp).2 ≤ reqs + fuel := by
  induction fuel generalizing reqs cookies url resp with
  | zero => simp [followAux]
  | succ n ih =>
    unfold followAux
    cases server reqs with
    | none =>
      show reqs + 1 ≤ reqs + (n + 1)
      omega
    | some r =>
      dsimp only
      split_ifs <;>
        first
          | exact le_trans (ih _ _ _ _) (by omega)
          | (show reqs + 1 ≤ reqs + (n + 1)
             omega)

/-- C7: one invocation of the redirect walker issues at most
`MAX_REDIRECTS` (5) additional requests after the first, i.e. at most
six requests in total, for every sequence of server responses. -/
theorem c7_redirect_request_bound (server : Nat → Option HttpResponse)
    (initial_url : String) :
    (follow_redirects_with_cookies server initial_url).2 ≤ 1 + MAX_REDIRECTS := by
  have h := followAux_requests_le server MAX_REDIRECTS 0 none initial_url none
  unfold follow_redirects_with_cookies
  omega

/-- C8 counterexample: a document whose calendar container holds
exactly one bookable `td` cell while a second bookable `td` sits
outside the container; the classifier reports slot_count 2 (the
document-wide count), not the container-descendant count 1 the claim
requires. -/
theorem c8_counterexample :
    hasCalendarContainer cexDoc = true ∧
    containerDescBuchbar cexDoc = 1 ∧
    (parse_appointments (Except.ok cexDoc) ("L") ("1") ("")).appointments ≠
      [{ location_name := "L", location_id := "1", has_slots := true,
         slot_count := containerDescBuchbar cexDoc }] ∧
    (parse_appointments (Except.ok cexDoc) ("L") ("1") ("")).appointments =
      [{ location_name := "L", location_id := "1", has_slots := true,
         slot_count := 2 }] := by
  decide

/-- C8 (amended): for a non-terminal final URL and a body in which the
calendar container is present and the document carries `n > 0` `td`
cells of class `buchbar` anywhere (the code counts document-wide, not
container descendants), the classifier returns the success result with
a single entry of slot_count `n`. -/
theorem c8_amended (doc : NodeList) (name id url : String) (n : Nat)
    (h1 : containsSub url ("/terminvereinbarung/termin/stop/") = false)
    (h2 : containsSub url ("/terminvereinbarung/termin/taken/") = false)
    (hc : hasCalendarContainer doc = true)
    (hn : docBuchbar doc = n) (hpos : 0 < n) :
    parse_appointments (Except.ok doc) name id url =
      { status := "success",
        appointments := [{ location_name := name, location_id := id,
                           has_slots := true, slot_count := n }],
        location := name, error := none } := by
  unfold hasCalendarContainer at hc
  unfold docBuchbar at hn
  unfold parse_appointments
  simp [h1, h2, hc, hn, hpos, Nat.pos_iff_ne_zero.mp hpos]

/-- witness for `c8_amended`: the three-slot calendar document at an
empty final URL. -/
theorem c8_amended_witness :
    containsSub ("") ("/terminvereinbarung/termin/stop/") = false ∧
    containsSub ("") ("/terminvereinbarung/termin/taken/") = false ∧
    hasCalendarContainer exDoc3 = true ∧
    docBuchbar exDoc3 = 3 ∧
    0 < 3 ∧
    parse_appointments (Except.ok exDoc3) ("VHS") ("1") ("") =
      { status := "success",
        appointments := [{ location_name := "VHS", location_id := "1",
                           has_slots := true, slot_count := 3 }],
        location := "VHS", error := none } :=
  ⟨by decide, by decide, by decide, by decide, by decide,
   c8_amended exDoc3 ("VHS") ("1") ("") 3 (by decide) (by decide) (by decide)
     (by decide) (by decide)⟩

/-- C10: every appointment entry the classifier produces has has_slots
true and slot_count at least one — an available outcome never carries
slot_count 0. -/
theorem c10_entries_have_slots (html : Except String NodeList)
    (name id url : String) :
    ∀ a ∈ (parse_appointments html name id url).appointments,
      a.has_slots = true ∧ 1 ≤ a.slot_count := by
  intro a ha
  rcases parse_appointments_shape html name id url with h | ⟨k, hk, h⟩
  · rw [h] at ha
    exact absurd ha (List.not_mem_nil a)
  · rw [h] at ha
    have ha2 : a = ⟨name, id, true, k⟩ := List.eq_of_mem_singleton ha
    subst ha2
    exact ⟨rfl, hk⟩

/-- witness for `c10_entries_have_slots`: the entry the classifier
produces on the three-slot calendar document. -/
theorem c10_entries_have_slots_witness :
    (⟨"VHS", "1", true, 3⟩ : Appointment) ∈
      (parse_appointments (Except.ok exDoc3) ("VHS") ("1") ("")).appointments ∧
    (⟨"VHS", "1", true, 3⟩ : Appointment).has_slots = true ∧
    1 ≤ (⟨"VHS", "1", true, 3⟩ : Appointment).slot_count :=
  ⟨by decide,
   c10_entries_have_slots (Except.ok exDoc3) ("VHS") ("1") ("")
     ⟨"VHS", "1", true, 3⟩ (by decide)⟩

end EBBot
